import Mathlib

/-!
Verification of the delivery-time prediction client
(`src/frontend/api_integration.js`).

The client has two prediction paths: a remote call whose response is copied
verbatim into the result, and a local heuristic (`calculateDeliveryTime`)
used whenever the remote call fails.  JavaScript numbers are modelled by
exact rationals (`ℚ`); `Math.round` is modelled by `jsRound` (round half
towards positive infinity, which is what `Math.round` does for the
non-negative values arising here and in general).  Weather and traffic are
modelled as the enum domains the form offers; the JS lookup tables are total
on exactly these keys.
-/

namespace Givi

/-- The weather enum domain of the form (`Clear|Cloudy|Hot|Rain|Heavy Rain`). -/
inductive Weather
  | Clear
  | Cloudy
  | Hot
  | Rain
  | HeavyRain
deriving DecidableEq, Repr

/-- The traffic enum domain of the form (`Low|Medium|High|Very High`). -/
inductive Traffic
  | Low
  | Medium
  | High
  | VeryHigh
deriving DecidableEq, Repr

/-- The `weatherMultipliers` table of `calculateDeliveryTime`. -/
def weatherMultipliers : Weather → ℚ
  | .Clear => 1.0
  | .Cloudy => 1.05
  | .Hot => 1.1
  | .Rain => 1.3
  | .HeavyRain => 1.6

/-- The `trafficMultipliers` table of `calculateDeliveryTime`. -/
def trafficMultipliers : Traffic → ℚ
  | .Low => 1.0
  | .Medium => 1.2
  | .High => 1.5
  | .VeryHigh => 1.8

/-- The `weatherImpacts` table of `calculateDeliveryTime`. -/
def weatherImpacts : Weather → String
  | .Clear => "Minimal"
  | .Cloudy => "Low"
  | .Hot => "Low"
  | .Rain => "Moderate"
  | .HeavyRain => "High"

/-- The `trafficImpacts` table of `calculateDeliveryTime`. -/
def trafficImpacts : Traffic → String
  | .Low => "Minimal"
  | .Medium => "Moderate"
  | .High => "Significant"
  | .VeryHigh => "Very High"

/-- `[12, 13, 14, 19, 20, 21].includes(hour)`. -/
def isPeakHour (hour : ℤ) : Bool :=
  hour = 12 || hour = 13 || hour = 14 || hour = 19 || hour = 20 || hour = 21

/-- `Math.round`: round half towards positive infinity. -/
def jsRound (q : ℚ) : ℤ := ⌊q + 1 / 2⌋

/-- The record returned by `calculateDeliveryTime`. -/
structure HeuristicResult where
  time : ℤ
  confidence : ℤ
  weatherImpact : String
  trafficImpact : String
  distanceFactor : String
  peakHour : String
deriving DecidableEq, Repr

/-- The fallback heuristic `calculateDeliveryTime(distance, weather, traffic, hour, items)`
of `src/frontend/api_integration.js`, lines 139-197, translated statement by
statement.  `baseTime` is threaded through its successive mutations. -/
def calculateDeliveryTime (distance : ℚ) (weather : Weather) (traffic : Traffic)
    (hour : ℤ) (items : ℤ) : HeuristicResult :=
  let baseTime0 := distance * 4
  let prepTime := 12 + items * 2
  let isPeak := isPeakHour hour
  let baseTime1 := baseTime0 * weatherMultipliers weather
  let baseTime2 := baseTime1 * trafficMultipliers traffic
  let baseTime3 := if isPeak then baseTime2 * 1.15 else baseTime2
  let totalTime := jsRound ((prepTime : ℚ) + baseTime3)
  let confidence : ℤ :=
    85 - (if weather = Weather.HeavyRain then 10 else 0)
       - (if traffic = Traffic.VeryHigh then 8 else 0)
       - (if distance > 10 then 5 else 0)
  { time := totalTime
    confidence := confidence
    weatherImpact := weatherImpacts weather
    trafficImpact := trafficImpacts traffic
    distanceFactor := if distance > 7 then "High" else if distance > 4 then "Medium" else "Low"
    peakHour := if isPeak then "Yes (+15%)" else "No" }

/-- A structurally received HTTP response of the `/predict` call: `ok` is
`response.ok` (2xx status), the rest is the parsed JSON body. -/
structure RemoteResponse where
  ok : Bool
  success : Bool
  estimated_time : ℤ
  confidence : ℤ
  weather_impact : String
  traffic_impact : String
  distance_factor : String
  peak_hour : String
deriving DecidableEq, Repr

/-- Outcome of the remote call: either a transport-level failure (the `fetch`
throws) or some HTTP response. -/
inductive RemoteOutcome
  | transportError
  | response (r : RemoteResponse)
deriving DecidableEq, Repr

/-- The remote call counts as successful exactly when a response arrived, its
status was 2xx (`response.ok`) and its body carried `success: true`; every
other outcome lands in the `catch` block of `predictDeliveryTime`. -/
def remoteSucceeded : RemoteOutcome → Option RemoteResponse
  | .transportError => none
  | .response r => if r.ok && r.success then some r else none

/-- The canonical result shape surfaced to the user: estimated time,
confidence, and the four factor fields. -/
structure CanonicalResult where
  estimatedTimeMinutes : ℤ
  confidencePercent : ℤ
  weatherImpact : String
  trafficImpact : String
  distanceFactor : String
  peakHour : String
deriving DecidableEq, Repr

/-- The orchestrator `predictDeliveryTime` of `src/frontend/api_integration.js`,
lines 6-136, restricted to its data flow: on remote success the response
fields are copied verbatim (lines 76-91); on any failure the `catch` block
(lines 104-129) calls `calculateDeliveryTime` with the original form fields
and the current hour, and surfaces `fallbackPrediction.confidence - 10`
(lines 119-120) together with the heuristic's factor fields. -/
def predictDeliveryTime (distance : ℚ) (weather : Weather) (traffic : Traffic)
    (items : ℤ) (currentHour : ℤ) (remote : RemoteOutcome) : CanonicalResult :=
  match remoteSucceeded remote with
  | some r =>
    { estimatedTimeMinutes := r.estimated_time
      confidencePercent := r.confidence
      weatherImpact := r.weather_impact
      trafficImpact := r.traffic_impact
      distanceFactor := r.distance_factor
      peakHour := r.peak_hour }
  | none =>
    let fallbackPrediction := calculateDeliveryTime distance weather traffic currentHour items
    { estimatedTimeMinutes := fallbackPrediction.time
      confidencePercent := fallbackPrediction.confidence - 10
      weatherImpact := fallbackPrediction.weatherImpact
      trafficImpact := fallbackPrediction.trafficImpact
      distanceFactor := fallbackPrediction.distanceFactor
      peakHour := fallbackPrediction.peakHour }

/-- The weather- and traffic-adjusted base time, before the peak surcharge. -/
def adjustedBase (distance : ℚ) (weather : Weather) (traffic : Traffic) : ℚ :=
  distance * 4 * weatherMultipliers weather * trafficMultipliers traffic

/-- Position of a traffic level in the severity order Low, Medium, High, VeryHigh. -/
def trafficSeverity : Traffic → ℕ
  | .Low => 0
  | .Medium => 1
  | .High => 2
  | .VeryHigh => 3

/-- Position of a weather value in the severity order Clear, Cloudy, Hot, Rain, HeavyRain. -/
def weatherSeverity : Weather → ℕ
  | .Clear => 0
  | .Cloudy => 1
  | .Hot => 2
  | .Rain => 3
  | .HeavyRain => 4

/-! ### Helper lemmas -/

lemma weatherMultipliers_pos (w : Weather) : 0 < weatherMultipliers w := by
  cases w <;> norm_num [weatherMultipliers]

lemma trafficMultipliers_pos (t : Traffic) : 0 < trafficMultipliers t := by
  cases t <;> norm_num [trafficMultipliers]

lemma jsRound_mono {x y : ℚ} (h : x ≤ y) : jsRound x ≤ jsRound y :=
  Int.floor_le_floor (by linarith)

lemma jsRound_intCast (z : ℤ) : jsRound (z : ℚ) = z := by
  simp [jsRound, Int.floor_int_add]
  norm_num

/-- The total time of the heuristic, expressed through `adjustedBase`. -/
lemma calculateDeliveryTime_time (d : ℚ) (w : Weather) (t : Traffic) (h n : ℤ) :
    (calculateDeliveryTime d w t h n).time =
      jsRound (((12 + n * 2 : ℤ) : ℚ) +
        (if isPeakHour h then adjustedBase d w t * 1.15 else adjustedBase d w t)) := by
  simp only [calculateDeliveryTime, adjustedBase]

/-- The confidence of the heuristic, as the three sequential penalties. -/
lemma calculateDeliveryTime_confidence (d : ℚ) (w : Weather) (t : Traffic) (h n : ℤ) :
    (calculateDeliveryTime d w t h n).confidence =
      85 - (if w = Weather.HeavyRain then 10 else 0)
         - (if t = Traffic.VeryHigh then 8 else 0)
         - (if d > 10 then 5 else 0) := rfl

lemma confidence_mem (d : ℚ) (w : Weather) (t : Traffic) (h n : ℤ) :
    62 ≤ (calculateDeliveryTime d w t h n).confidence ∧
      (calculateDeliveryTime d w t h n).confidence ≤ 85 := by
  rw [calculateDeliveryTime_confidence]
  constructor <;> (split_ifs <;> norm_num)

lemma adjustedBase_nonneg {d : ℚ} (hd : 0 ≤ d) (w : Weather) (t : Traffic) :
    0 ≤ adjustedBase d w t :=
  mul_nonneg (mul_nonneg (by linarith) (weatherMultipliers_pos w).le)
    (trafficMultipliers_pos t).le

lemma prep_le_time {d : ℚ} (w : Weather) (t : Traffic) (h : ℤ) (n : ℤ)
    (hd : 0 ≤ d) :
    12 + n * 2 ≤ (calculateDeliveryTime d w t h n).time := by
  rw [calculateDeliveryTime_time]
  have hb : 0 ≤ (if isPeakHour h then adjustedBase d w t * 1.15 else adjustedBase d w t) := by
    split
    · exact mul_nonneg (adjustedBase_nonneg hd w t) (by norm_num)
    · exact adjustedBase_nonneg hd w t
  calc 12 + n * 2 = jsRound ((12 + n * 2 : ℤ) : ℚ) := (jsRound_intCast _).symm
    _ ≤ _ := jsRound_mono (le_add_of_nonneg_right hb)

lemma calculateDeliveryTime_weatherImpact (d : ℚ) (w : Weather) (t : Traffic) (h n : ℤ) :
    (calculateDeliveryTime d w t h n).weatherImpact = weatherImpacts w := rfl

lemma calculateDeliveryTime_trafficImpact (d : ℚ) (w : Weather) (t : Traffic) (h n : ℤ) :
    (calculateDeliveryTime d w t h n).trafficImpact = trafficImpacts t := rfl

lemma calculateDeliveryTime_distanceFactor (d : ℚ) (w : Weather) (t : Traffic) (h n : ℤ) :
    (calculateDeliveryTime d w t h n).distanceFactor =
      if d > 7 then "High" else if d > 4 then "Medium" else "Low" := rfl

lemma calculateDeliveryTime_peakHour (d : ℚ) (w : Weather) (t : Traffic) (h n : ℤ) :
    (calculateDeliveryTime d w t h n).peakHour =
      if isPeakHour h then "Yes (+15%)" else "No" := rfl

lemma isPeakHour_iff (h : ℤ) :
    isPeakHour h = true ↔ h ∈ ([12, 13, 14, 19, 20, 21] : List ℤ) := by
  simp only [isPeakHour, Bool.or_eq_true, decide_eq_true_eq, List.mem_cons,
    List.not_mem_nil, or_false]
  tauto

/-! ### Claim theorems -/

/-- C2, counterexample: at distance=12, weather=HeavyRain, traffic=VeryHigh,
hour=20, numItems=3 the heuristic's total is not the claimed 97 minutes. -/
theorem C2_counterexample :
    (calculateDeliveryTime 12 Weather.HeavyRain Traffic.VeryHigh 20 3).time ≠ 97 := by
  norm_num [calculateDeliveryTime, jsRound, weatherMultipliers, trafficMultipliers, isPeakHour]

/-- C2, amended: at distance=12, weather=HeavyRain, traffic=VeryHigh, hour=20,
numItems=3 the heuristic yields prepTime=18, a peak-adjusted base of
12 × 4 × 1.6 × 1.8 × 1.15 = 158.976, total round(18 + 158.976) = 177 minutes,
confidence 85 − 10 − 8 − 5 = 62, distanceFactor High and peakHour
"Yes (+15%)".  (The spec's arithmetic 12×4×1.6×1.8×1.15 = 79.49 and total 97
is wrong; the product is 158.976.) -/
theorem C2_scenario :
    calculateDeliveryTime 12 Weather.HeavyRain Traffic.VeryHigh 20 3 =
      { time := 177, confidence := 62, weatherImpact := "High",
        trafficImpact := "Very High", distanceFactor := "High",
        peakHour := "Yes (+15%)" } ∧
    adjustedBase 12 Weather.HeavyRain Traffic.VeryHigh * 1.15 = 158.976 ∧
    (12 : ℤ) + 3 * 2 = 18 ∧
    jsRound (18 + 158.976) = 177 := by
  refine ⟨?_, ?_, by norm_num, ?_⟩
  · norm_num [calculateDeliveryTime, jsRound, weatherMultipliers,
      trafficMultipliers, weatherImpacts, trafficImpacts, isPeakHour]
  · norm_num [adjustedBase, weatherMultipliers, trafficMultipliers]
  · norm_num [jsRound]

/-- C5: with distance, weather, hour and item count fixed, a traffic level at
least as severe (in the order Low, Medium, High, VeryHigh) never yields a
smaller total time, for non-negative distance. -/
theorem C5_traffic_mono (d : ℚ) (w : Weather) (t1 t2 : Traffic) (hour n : ℤ)
    (hd : 0 ≤ d) (ht : trafficSeverity t1 ≤ trafficSeverity t2) :
    (calculateDeliveryTime d w t1 hour n).time ≤ (calculateDeliveryTime d w t2 hour n).time := by
  have hmul : trafficMultipliers t1 ≤ trafficMultipliers t2 := by
    cases t1 <;> cases t2 <;> simp only [trafficSeverity] at ht <;>
      first
        | omega
        | norm_num [trafficMultipliers]
  have hbase : adjustedBase d w t1 ≤ adjustedBase d w t2 :=
    mul_le_mul_of_nonneg_left hmul
      (mul_nonneg (by linarith) (weatherMultipliers_pos w).le)
  rw [calculateDeliveryTime_time, calculateDeliveryTime_time]
  apply jsRound_mono
  apply add_le_add_left
  split
  · exact mul_le_mul_of_nonneg_right hbase (by norm_num)
  · exact hbase

/-- C5 witness: Low is no more severe than VeryHigh at a concrete input. -/
theorem C5_traffic_mono_witness :
    (0 : ℚ) ≤ 5 ∧ trafficSeverity Traffic.Low ≤ trafficSeverity Traffic.VeryHigh ∧
    (calculateDeliveryTime 5 Weather.Clear Traffic.Low 10 2).time ≤
      (calculateDeliveryTime 5 Weather.Clear Traffic.VeryHigh 10 2).time :=
  ⟨by norm_num, by decide,
    C5_traffic_mono 5 Weather.Clear Traffic.Low Traffic.VeryHigh 10 2
      (by norm_num) (by decide)⟩

/-- C9: with distance, traffic, hour and item count fixed, a weather value at
least as severe (in the order Clear, Cloudy, Hot, Rain, HeavyRain) never
yields a smaller total time, for non-negative distance. -/
theorem C9_weather_mono (d : ℚ) (w1 w2 : Weather) (t : Traffic) (hour n : ℤ)
    (hd : 0 ≤ d) (hw : weatherSeverity w1 ≤ weatherSeverity w2) :
    (calculateDeliveryTime d w1 t hour n).time ≤ (calculateDeliveryTime d w2 t hour n).time := by
  have hmul : weatherMultipliers w1 ≤ weatherMultipliers w2 := by
    cases w1 <;> cases w2 <;> simp only [weatherSeverity] at hw <;>
      first
        | omega
        | norm_num [weatherMultipliers]
  have hbase : adjustedBase d w1 t ≤ adjustedBase d w2 t :=
    mul_le_mul_of_nonneg_right
      (mul_le_mul_of_nonneg_left hmul (by linarith))
      (trafficMultipliers_pos t).le
  rw [calculateDeliveryTime_time, calculateDeliveryTime_time]
  apply jsRound_mono
  apply add_le_add_left
  split
  · exact mul_le_mul_of_nonneg_right hbase (by norm_num)
  · exact hbase

/-- C9 witness: Clear is no more severe than HeavyRain at a concrete input. -/
theorem C9_weather_mono_witness :
    (0 : ℚ) ≤ 5 ∧ weatherSeverity Weather.Clear ≤ weatherSeverity Weather.HeavyRain ∧
    (calculateDeliveryTime 5 Weather.Clear Traffic.Low 10 2).time ≤
      (calculateDeliveryTime 5 Weather.HeavyRain Traffic.Low 10 2).time :=
  ⟨by norm_num, by decide,
    C9_weather_mono 5 Weather.Clear Weather.HeavyRain Traffic.Low 10 2
      (by norm_num) (by decide)⟩

/-- C7: the heuristic is deterministic — equal argument tuples give equal
result records. -/
theorem C7_deterministic (d1 d2 : ℚ) (w1 w2 : Weather) (t1 t2 : Traffic)
    (h1 h2 n1 n2 : ℤ) (hd : d1 = d2) (hw : w1 = w2) (ht : t1 = t2)
    (hh : h1 = h2) (hn : n1 = n2) :
    calculateDeliveryTime d1 w1 t1 h1 n1 = calculateDeliveryTime d2 w2 t2 h2 n2 := by
  rw [hd, hw, ht, hh, hn]

/-- C7 witness: determinism at a concrete argument tuple. -/
theorem C7_deterministic_witness :
    (5 : ℚ) = 5 ∧
    calculateDeliveryTime 5 Weather.Clear Traffic.Low 10 2 =
      calculateDeliveryTime 5 Weather.Clear Traffic.Low 10 2 :=
  ⟨rfl, C7_deterministic 5 5 Weather.Clear Weather.Clear Traffic.Low Traffic.Low
    10 10 2 2 rfl rfl rfl rfl rfl⟩

/-- C8: for every input the heuristic's confidence lies in [62, 85], hence
after the 10-point offline penalty it is still at least 52, and flooring at 0
never has an effect. -/
theorem C8_confidence_bounds (d : ℚ) (w : Weather) (t : Traffic) (hour n : ℤ) :
    62 ≤ (calculateDeliveryTime d w t hour n).confidence ∧
    (calculateDeliveryTime d w t hour n).confidence ≤ 85 ∧
    52 ≤ (calculateDeliveryTime d w t hour n).confidence - 10 ∧
    max 0 ((calculateDeliveryTime d w t hour n).confidence - 10) =
      (calculateDeliveryTime d w t hour n).confidence - 10 := by
  have hc := confidence_mem d w t hour n
  omega

/-- C10: the total time is at least the preparation time 12 + 2·numItems, and
therefore at least 12, for non-negative distance and item count. -/
theorem C10_time_lower_bound (d : ℚ) (w : Weather) (t : Traffic) (hour n : ℤ)
    (hd : 0 ≤ d) (hn : 0 ≤ n) :
    12 + n * 2 ≤ (calculateDeliveryTime d w t hour n).time ∧
    12 ≤ (calculateDeliveryTime d w t hour n).time := by
  have h := prep_le_time w t hour n hd
  omega

/-- C1, counterexample: on the remote-success path the confidence is copied
verbatim with no clamp, so a remote response carrying confidence 150 surfaces
a confidencePercent of 150 > 100; no clamping to [0,100] happens in the
final assembly. -/
theorem C1_counterexample :
    100 < (predictDeliveryTime 5 Weather.Clear Traffic.Low 2 10
        (RemoteOutcome.response
          { ok := true, success := true, estimated_time := 30, confidence := 150,
            weather_impact := "Minimal", traffic_impact := "Minimal",
            distance_factor := "Medium", peak_hour := "No" })).confidencePercent := by
  norm_num [predictDeliveryTime, remoteSucceeded]

/-- C1, amended: on the fallback path the result always has confidencePercent
in [0,100] and estimatedTimeMinutes ≥ 0 for valid inputs (distance > 0,
numItems ≥ 1) — not because of any clamp, but because the heuristic's
confidence never drops low enough; the remote-success path copies the remote
values verbatim and is bounded only if the remote is. -/
theorem C1_fallback_in_range (d : ℚ) (w : Weather) (t : Traffic) (n hour : ℤ)
    (remote : RemoteOutcome) (hd : 0 < d) (hn : 1 ≤ n)
    (hfail : remoteSucceeded remote = none) :
    0 ≤ (predictDeliveryTime d w t n hour remote).confidencePercent ∧
    (predictDeliveryTime d w t n hour remote).confidencePercent ≤ 100 ∧
    0 ≤ (predictDeliveryTime d w t n hour remote).estimatedTimeMinutes := by
  have hc := confidence_mem d w t hour n
  have htm := prep_le_time w t hour n hd.le
  simp only [predictDeliveryTime, hfail]
  refine ⟨by omega, by omega, by omega⟩

/-- C1 witness: the fallback bounds at a concrete input with a transport
failure. -/
theorem C1_fallback_in_range_witness :
    (0 : ℚ) < 5 ∧ (1 : ℤ) ≤ 2 ∧
    remoteSucceeded RemoteOutcome.transportError = none ∧
    (0 ≤ (predictDeliveryTime 5 Weather.Clear Traffic.Low 2 10
        RemoteOutcome.transportError).confidencePercent ∧
      (predictDeliveryTime 5 Weather.Clear Traffic.Low 2 10
        RemoteOutcome.transportError).confidencePercent ≤ 100 ∧
      0 ≤ (predictDeliveryTime 5 Weather.Clear Traffic.Low 2 10
        RemoteOutcome.transportError).estimatedTimeMinutes) :=
  ⟨by norm_num, by norm_num, rfl,
    C1_fallback_in_range 5 Weather.Clear Traffic.Low 2 10 RemoteOutcome.transportError
      (by norm_num) (by norm_num) rfl⟩

/-- C3: on every remote-failure path the surfaced confidence equals
max(0, heuristicConfidence − 10).  The code computes confidence − 10 with no
explicit floor, but the two agree because the heuristic's confidence is
always at least 62. -/
theorem C3_offline_confidence (d : ℚ) (w : Weather) (t : Traffic) (n hour : ℤ)
    (remote : RemoteOutcome) (hfail : remoteSucceeded remote = none) :
    (predictDeliveryTime d w t n hour remote).confidencePercent =
      max 0 ((calculateDeliveryTime d w t hour n).confidence - 10) := by
  have hc := confidence_mem d w t hour n
  simp only [predictDeliveryTime, hfail]
  omega

/-- C3 witness: the offline confidence at a concrete input with an HTTP
failure response. -/
theorem C3_offline_confidence_witness :
    remoteSucceeded (RemoteOutcome.response
      { ok := false, success := false, estimated_time := 0, confidence := 0,
        weather_impact := "", traffic_impact := "", distance_factor := "",
        peak_hour := "" }) = none ∧
    (predictDeliveryTime 5 Weather.Clear Traffic.Low 2 10
        (RemoteOutcome.response
          { ok := false, success := false, estimated_time := 0, confidence := 0,
            weather_impact := "", traffic_impact := "", distance_factor := "",
            peak_hour := "" })).confidencePercent =
      max 0 ((calculateDeliveryTime 5 Weather.Clear Traffic.Low 10 2).confidence - 10) :=
  ⟨rfl, C3_offline_confidence 5 Weather.Clear Traffic.Low 2 10 _ rfl⟩

/-- C4: on every remote-failure path the orchestrator routes to the fallback
and surfaces a complete result: it equals the assembly of the heuristic's
record, and each of the four factor fields is drawn from its fixed non-empty
table of values. -/
theorem C4_fallback_complete (d : ℚ) (w : Weather) (t : Traffic) (n hour : ℤ)
    (remote : RemoteOutcome) (hfail : remoteSucceeded remote = none) :
    predictDeliveryTime d w t n hour remote =
      { estimatedTimeMinutes := (calculateDeliveryTime d w t hour n).time
        confidencePercent := (calculateDeliveryTime d w t hour n).confidence - 10
        weatherImpact := weatherImpacts w
        trafficImpact := trafficImpacts t
        distanceFactor := (calculateDeliveryTime d w t hour n).distanceFactor
        peakHour := (calculateDeliveryTime d w t hour n).peakHour } ∧
    (predictDeliveryTime d w t n hour remote).weatherImpact ∈
      (["Minimal", "Low", "Moderate", "High"] : List String) ∧
    (predictDeliveryTime d w t n hour remote).trafficImpact ∈
      (["Minimal", "Moderate", "Significant", "Very High"] : List String) ∧
    (predictDeliveryTime d w t n hour remote).distanceFactor ∈
      (["Low", "Medium", "High"] : List String) ∧
    (predictDeliveryTime d w t n hour remote).peakHour ∈
      (["No", "Yes (+15%)"] : List String) := by
  simp only [predictDeliveryTime, hfail]
  refine ⟨rfl, ?_, ?_, ?_, ?_⟩
  · rw [calculateDeliveryTime_weatherImpact]
    cases w <;> simp [weatherImpacts]
  · rw [calculateDeliveryTime_trafficImpact]
    cases t <;> simp [trafficImpacts]
  · rw [calculateDeliveryTime_distanceFactor]
    split_ifs <;> simp
  · rw [calculateDeliveryTime_peakHour]
    split_ifs <;> simp

/-- C4 witness: completeness of the fallback result when the remote returns
an HTTP 500 (a non-2xx response, `ok = false`). -/
theorem C4_fallback_complete_witness :
    remoteSucceeded (RemoteOutcome.response
      { ok := false, success := true, estimated_time := 0, confidence := 0,
        weather_impact := "", traffic_impact := "", distance_factor := "",
        peak_hour := "" }) = none ∧
    predictDeliveryTime 12 Weather.HeavyRain Traffic.VeryHigh 3 20
        (RemoteOutcome.response
          { ok := false, success := true, estimated_time := 0, confidence := 0,
            weather_impact := "", traffic_impact := "", distance_factor := "",
            peak_hour := "" }) =
      { estimatedTimeMinutes := (calculateDeliveryTime 12 Weather.HeavyRain
          Traffic.VeryHigh 20 3).time
        confidencePercent := (calculateDeliveryTime 12 Weather.HeavyRain
          Traffic.VeryHigh 20 3).confidence - 10
        weatherImpact := weatherImpacts Weather.HeavyRain
        trafficImpact := trafficImpacts Traffic.VeryHigh
        distanceFactor := (calculateDeliveryTime 12 Weather.HeavyRain
          Traffic.VeryHigh 20 3).distanceFactor
        peakHour := (calculateDeliveryTime 12 Weather.HeavyRain
          Traffic.VeryHigh 20 3).peakHour } :=
  ⟨rfl, (C4_fallback_complete 12 Weather.HeavyRain Traffic.VeryHigh 3 20
    (RemoteOutcome.response
      { ok := false, success := true, estimated_time := 0, confidence := 0,
        weather_impact := "", traffic_impact := "", distance_factor := "",
        peak_hour := "" }) rfl).1⟩

/-- C6: at a peak hour (one of 12, 13, 14, 19, 20, 21) the result is marked
"Yes (+15%)" and the total is the rounding of prepTime plus 1.15 times the
weather- and traffic-adjusted base; at any non-peak hour it is marked "No"
and no surcharge is applied. -/
theorem C6_peak_surcharge (d : ℚ) (w : Weather) (t : Traffic) (n h1 h2 : ℤ)
    (hp : h1 ∈ ([12, 13, 14, 19, 20, 21] : List ℤ))
    (hnp : h2 ∉ ([12, 13, 14, 19, 20, 21] : List ℤ)) :
    (calculateDeliveryTime d w t h1 n).peakHour = "Yes (+15%)" ∧
    (calculateDeliveryTime d w t h1 n).time =
      jsRound (((12 + n * 2 : ℤ) : ℚ) + adjustedBase d w t * 1.15) ∧
    (calculateDeliveryTime d w t h2 n).peakHour = "No" ∧
    (calculateDeliveryTime d w t h2 n).time =
      jsRound (((12 + n * 2 : ℤ) : ℚ) + adjustedBase d w t) := by
  have hp' : isPeakHour h1 = true := (isPeakHour_iff h1).mpr hp
  have hnp' : isPeakHour h2 = false := by
    cases hb : isPeakHour h2
    · rfl
    · exact absurd ((isPeakHour_iff h2).mp hb) hnp
  refine ⟨?_, ?_, ?_, ?_⟩
  · rw [calculateDeliveryTime_peakHour, hp']
    rfl
  · rw [calculateDeliveryTime_time, hp']
    rfl
  · rw [calculateDeliveryTime_peakHour, hnp']
    rfl
  · rw [calculateDeliveryTime_time, hnp']
    rfl

/-- C6 witness: hour 20 is peak, hour 10 is not, at a concrete input. -/
theorem C6_peak_surcharge_witness :
    (20 : ℤ) ∈ ([12, 13, 14, 19, 20, 21] : List ℤ) ∧
    (10 : ℤ) ∉ ([12, 13, 14, 19, 20, 21] : List ℤ) ∧
    ((calculateDeliveryTime 5 Weather.Clear Traffic.Low 20 2).peakHour = "Yes (+15%)" ∧
      (calculateDeliveryTime 5 Weather.Clear Traffic.Low 20 2).time =
        jsRound (((12 + 2 * 2 : ℤ) : ℚ) + adjustedBase 5 Weather.Clear Traffic.Low * 1.15) ∧
      (calculateDeliveryTime 5 Weather.Clear Traffic.Low 10 2).peakHour = "No" ∧
      (calculateDeliveryTime 5 Weather.Clear Traffic.Low 10 2).time =
        jsRound (((12 + 2 * 2 : ℤ) : ℚ) + adjustedBase 5 Weather.Clear Traffic.Low)) :=
  ⟨by decide, by decide,
    C6_peak_surcharge 5 Weather.Clear Traffic.Low 2 20 10 (by decide) (by decide)⟩

/-- C10 witness: the lower bound at a concrete input. -/
theorem C10_time_lower_bound_witness :
    (0 : ℚ) ≤ 5 ∧ (0 : ℤ) ≤ 2 ∧
    (12 + 2 * 2 ≤ (calculateDeliveryTime 5 Weather.Clear Traffic.Low 10 2).time ∧
      12 ≤ (calculateDeliveryTime 5 Weather.Clear Traffic.Low 10 2).time) :=
  ⟨by norm_num, by norm_num,
    C10_time_lower_bound 5 Weather.Clear Traffic.Low 10 2 (by norm_num) (by norm_num)⟩

end Givi
